import Mathlib

/-!
Shallow embedding of the colima-manager Profile Lifecycle Orchestrator
(`internal/domain/colima.go`, `internal/usecase/colima_usecase.go`,
`internal/infrastructure/colima/repository.go`, `main.go`).

Go strings are modelled as Lean `String`/`List Char`; external commands and
filesystem probes are modelled as explicit oracle inputs (`Except String _`
results supplied to the embedded functions); the `logger` collaborator only
logs and returns its error argument unchanged (`Logger.LogError` in
`internal/pkg/logger`), so logging is dropped from the embedding and error
values flow through unchanged.
-/

namespace ColimaM

/-- Characters Go's `strings` package treats as ASCII white space
(`unicode.IsSpace` restricted to ASCII, which is all the probe output uses). -/
def isWS (c : Char) : Bool :=
  c = ' ' || c = '\t' || c = '\n' || c = '\x0b' || c = '\x0c' || c = '\r'

/-- `strings.Contains` on character lists: `pat` occurs as a contiguous
infix of `s`. -/
def containsL (s pat : List Char) : Bool :=
  match s with
  | [] => pat.isEmpty
  | _ :: rest => pat.isPrefixOf s || containsL rest pat

/-- `strings.Contains` on strings. -/
def sContains (s pat : String) : Bool :=
  containsL s.toList pat.toList

/-- `strings.Split(s, "\n")` on character lists: substrings between
newline separators, keeping empty pieces. -/
def splitNl : List Char → List (List Char)
  | [] => [[]]
  | c :: rest =>
    if c = '\n' then [] :: splitNl rest
    else
      match splitNl rest with
      | [] => [[c]]
      | l :: ls => (c :: l) :: ls

/-- `strings.TrimSpace`: drop leading and trailing white space. -/
def trimSpace (s : List Char) : List Char :=
  ((s.dropWhile isWS).reverse.dropWhile isWS).reverse

/-- Accumulator worker for `fields`: `cur` holds the reversed characters of
the word currently being read. -/
def fieldsAux (cur : List Char) : List Char → List (List Char)
  | [] => if cur.isEmpty then [] else [cur.reverse]
  | c :: rest =>
    if isWS c then
      if cur.isEmpty then fieldsAux [] rest
      else cur.reverse :: fieldsAux [] rest
    else fieldsAux (c :: cur) rest

/-- `strings.Fields`: maximal runs of non-white-space characters. -/
def fields (s : List Char) : List (List Char) :=
  fieldsAux [] s

/-- Digits of a decimal literal folded to a `Nat`. -/
def digitsToNat (ds : List Char) : Nat :=
  ds.foldl (fun a c => a * 10 + (c.toNat - 48)) 0

/-- Parse a maximal non-empty digit prefix (`fmt` scanning of the digit part
of `%d`). -/
def parseNatPrefix (s : List Char) : Option Nat :=
  let ds := s.takeWhile Char.isDigit
  if ds.isEmpty then none else some (digitsToNat ds)

/-- Parse a decimal integer with optional sign, as `fmt`'s `%d` verb does
after white-space skipping. -/
def parseIntPrefix : List Char → Option Int
  | '-' :: rest => (parseNatPrefix rest).map (fun n => -(n : Int))
  | '+' :: rest => (parseNatPrefix rest).map (fun n => (n : Int))
  | s => (parseNatPrefix s).map (fun n => (n : Int))

/-- `fmt.Sscanf(line, lit ++ " %d", &x)`: the literal must match at the very
start of the line, then white space is skipped (both for the blank in the
format and by `%d` itself), then a signed decimal is read; any unconsumed
suffix is ignored.  `none` models a scan error, which leaves the Go target
variable unchanged. -/
def sscanfIntAfter (lit : List Char) (line : List Char) : Option Int :=
  if lit.isPrefixOf line then
    parseIntPrefix ((line.drop lit.length).dropWhile isWS)
  else none

/-! ## Data model (`internal/domain/colima.go`) -/

/-- `domain.DependencyStatus`. -/
structure DependencyStatus where
  homebrew : Bool := false
  homebrewPath : String := ""
  colima : Bool := false
  colimaVersion : String := ""
  colimaPath : String := ""
  lima : Bool := false
  limaVersion : String := ""
deriving DecidableEq, Repr

/-- `domain.ColimaStatus`. -/
structure ColimaStatus where
  status : String := ""
  cpus : Int := 0
  memory : Int := 0
  diskSize : Int := 0
  kubernetes : Bool := false
  profile : String := ""
deriving DecidableEq, Repr

/-- `domain.ColimaConfig`. -/
structure ColimaConfig where
  cpus : Int := 0
  memory : Int := 0
  diskSize : Int := 0
  vmType : String := ""
  runtime : String := ""
  networkAddress : Bool := false
  kubernetes : Bool := false
  profile : String := ""
deriving DecidableEq, Repr

/-- `domain.DefaultColimaConfig`. -/
def DefaultColimaConfig : ColimaConfig :=
  { cpus := 12, memory := 32, diskSize := 100, vmType := "vz",
    runtime := "containerd", networkAddress := true, kubernetes := true,
    profile := "default" }

/-- The closed set of structured error values of `internal/domain/colima.go`,
plus `raw`, which stands for any Go error value that is not one of the
domain's custom error types (e.g. an `exec.ExitError` or an `os` file error
returned unwrapped). -/
inductive Err where
  | profileNotFound (profile : String)
  | profileNotStarted (profile : String)
  | profileUnreachable (profile reason : String)
  | profileMalfunction (profile reason : String)
  | profileBusy (profile : String)
  | dependencyError (dependency reason : String)
  | dockerContextError (operation profile reason : String)
  | raw (msg : String)
deriving DecidableEq, Repr

/-- Membership in the closed fault taxonomy: every structured domain error
type is a taxonomy member; a raw, unwrapped collaborator error is not. -/
def Err.isTaxonomy : Err → Bool
  | .raw _ => false
  | _ => true

/-! ## Lock registry (`domain.ProfileLock`)

The Go registry is a `map[string]bool` guarded by a single mutex, so each
operation is one atomic transition on the table; the table is modelled as
the list of currently held names. -/

/-- `ProfileLock.IsLocked`. -/
def lockIsHeld (L : List String) (p : String) : Bool :=
  L.contains p

/-- `ProfileLock.Lock`: test-and-set; returns `false` and leaves the table
unchanged when the name is already held. -/
def lockAcquire (L : List String) (p : String) : Bool × List String :=
  if lockIsHeld L p then (false, L) else (true, p :: L)

/-- `ProfileLock.Unlock`: `delete(pl.locks, profile)`. -/
def lockRelease (L : List String) (p : String) : List String :=
  L.filter (fun q => q != p)

/-! ## Status classifier and parser (`ColimaRepository.Status`) -/

/-- Line-loop step 1 (`repository.go` lines 230-232): a line containing
"running" sets the status string to (lowercase) "running". -/
def updRunning (line : List Char) (st : ColimaStatus) : ColimaStatus :=
  if containsL line "running".toList then { st with status := "running" } else st

/-- Line-loop step 2 (lines 233-235): `fmt.Sscanf(line, "CPU: %d", &cpus)`
behind a `strings.Contains(line, "CPU:")` gate; a scan error leaves the
field unchanged. -/
def updCPU (line : List Char) (st : ColimaStatus) : ColimaStatus :=
  if containsL line "CPU:".toList then
    match sscanfIntAfter "CPU:".toList line with
    | some n => { st with cpus := n }
    | none => st
  else st

/-- Line-loop step 3 (lines 236-238): the Memory field. -/
def updMemory (line : List Char) (st : ColimaStatus) : ColimaStatus :=
  if containsL line "Memory:".toList then
    match sscanfIntAfter "Memory:".toList line with
    | some n => { st with memory := n }
    | none => st
  else st

/-- Line-loop step 4 (lines 239-241): the Disk field. -/
def updDisk (line : List Char) (st : ColimaStatus) : ColimaStatus :=
  if containsL line "Disk:".toList then
    match sscanfIntAfter "Disk:".toList line with
    | some n => { st with diskSize := n }
    | none => st
  else st

/-- Line-loop step 5 (lines 242-244): a line containing "kubernetes" sets
the Kubernetes flag. -/
def updKube (line : List Char) (st : ColimaStatus) : ColimaStatus :=
  if containsL line "kubernetes".toList then { st with kubernetes := true } else st

/-- One iteration of the line loop in `ColimaRepository.Status`
(`repository.go` lines 229-245): the five marker rules applied in source
order (each is an independent `if` in the Go loop body). -/
def scanLine (st : ColimaStatus) (line : List Char) : ColimaStatus :=
  updKube line (updDisk line (updMemory line (updCPU line (updRunning line st))))

/-- The success-path parser of `ColimaRepository.Status`: split the probe
output on newlines and scan each line in order. -/
def parseColimaStatus (profile : String) (output : String) : ColimaStatus :=
  (splitNl output.toList).foldl scanLine { profile := profile }

/-- `ColimaRepository.Status` (`repository.go` lines 182-248).
`pexists` is the result of `checkProfileExists` (an `os.Stat` probe on the
profile's state directory), `output` the probe's combined stdout/stderr, and
`exitOk` whether the probe command exited successfully. -/
def statusGo (profile : String) (pexists : Bool) (output : String)
    (exitOk : Bool) : Except Err ColimaStatus :=
  if !pexists then .error (.profileNotFound profile)
  else if !exitOk then
    if sContains output "is not running" then .error (.profileNotStarted profile)
    else if sContains output "connection refused" || sContains output "cannot connect" then
      .error (.profileUnreachable profile "connection to VM failed")
    else .error (.profileMalfunction profile output)
  else .ok (parseColimaStatus profile output)

/-- The readiness test of the bootstrap polling loop (`main.go` line 102):
`status.Status == "Running"` with a capital R. -/
def bootReadyTest (st : ColimaStatus) : Bool :=
  st.status == "Running"

/-! ## Dependency bootstrapper (`ColimaRepository.CheckDependencies`,
`ColimaRepository.UpdateDependencies`) -/

/-- Oracle results for the four external commands `CheckDependencies` may
run; errors carry the Go error's message. -/
structure DepExec where
  brewPrefix : Except String String
  whichColima : Except String String
  colimaVersion : Except String String
  brewListLima : Except String String
deriving Repr

/-- Result of `CheckDependencies`, together with the list of dependency
checks that were actually performed, in order. -/
structure DepCheckResult where
  status : DependencyStatus
  fault : Option Err
  checks : List String
deriving DecidableEq, Repr

/-- `ColimaRepository.CheckDependencies` (`repository.go` lines 39-94):
Homebrew first with an immediate fault on absence; the Colima and Lima
checks otherwise both run, recording absence as `false` without a fault. -/
def checkDependenciesGo (e : DepExec) : DepCheckResult :=
  match e.brewPrefix with
  | .error _ =>
    { status := { homebrew := false },
      fault := some (.dependencyError "homebrew" "not installed or not in PATH"),
      checks := ["homebrew"] }
  | .ok brewOut =>
    let st0 : DependencyStatus :=
      { homebrew := true, homebrewPath := String.mk (trimSpace brewOut.toList) }
    let st1 :=
      match e.whichColima with
      | .ok p =>
        let base := { st0 with colima := true, colimaPath := String.mk (trimSpace p.toList) }
        match e.colimaVersion with
        | .ok v => { base with colimaVersion := String.mk (trimSpace v.toList) }
        | .error _ => base
      | .error _ => st0
    let st2 :=
      match e.brewListLima with
      | .ok out =>
        match fields out.toList with
        | _ :: ver :: _ => { st1 with lima := true, limaVersion := String.mk ver }
        | _ => st1
      | .error _ => st1
    { status := st2, fault := none, checks := ["homebrew", "colima", "lima"] }

/-- Oracle results for the two commands `UpdateDependencies` runs. -/
structure UpdExec where
  brewUpdate : Except String Unit
  brewUpgrade : Except String Unit
deriving Repr

/-- `ColimaRepository.UpdateDependencies` (`repository.go` lines 96-121). -/
def updateDependenciesGo (e : UpdExec) : Option Err :=
  match e.brewUpdate with
  | .error msg => some (.dependencyError "homebrew" ("failed to update: " ++ msg))
  | .ok _ =>
    match e.brewUpgrade with
    | .error msg => some (.dependencyError "colima/lima" ("failed to upgrade: " ++ msg))
    | .ok _ => none

/-! ## Repository Start / Stop / GetKubeConfig (`repository.go`) -/

/-- `ColimaRepository.Start` (`repository.go` lines 123-156): builds
`colima start` arguments from the config and runs it; on a non-zero exit it
returns the process error unwrapped (only logged), so the caller sees a raw
error, not a taxonomy member. -/
def repoStartGo (_config : ColimaConfig) (execRes : Except String String) :
    Except Err Unit :=
  match execRes with
  | .error msg => .error (.raw msg)
  | .ok _ => .ok ()

/-- `ColimaRepository.Stop` (`repository.go` lines 158-180): not-found check,
then `colima stop`; a process failure is returned unwrapped. -/
def repoStopGo (profile : String) (pexists : Bool)
    (execRes : Except String String) : Except Err Unit :=
  if !pexists then .error (.profileNotFound profile)
  else
    match execRes with
    | .error msg => .error (.raw msg)
    | .ok _ => .ok ()

/-- `ColimaRepository.GetKubeConfig` (`repository.go` lines 251-274):
not-found check, then `os.ReadFile` on the kubeconfig path; a read failure
is returned unwrapped. -/
def getKubeConfigGo (profile : String) (pexists : Bool)
    (readRes : Except String String) : Except Err String :=
  if !pexists then .error (.profileNotFound profile)
  else
    match readRes with
    | .error msg => .error (.raw msg)
    | .ok text => .ok text

/-! ## Clean (`ColimaRepository.Clean`, single-profile mode) -/

/-- Oracle results for the external steps of single-profile `Clean`. -/
structure CleanExec where
  stop : Except String Unit
  del : Except String Unit
  removeColimaDir : Except String Unit
  removeLimaDir : Except String Unit
deriving Repr

/-- Which external steps of `Clean` were reached. -/
structure CleanTrace where
  deleteAttempted : Bool
  dirsRemovalAttempted : Bool
deriving DecidableEq, Repr

/-- Single-profile `ColimaRepository.Clean` (`repository.go` lines 280-313):
the stop step's outcome is only logged (`e.stop` is never consulted for
control flow, matching the Go), a delete failure is returned unwrapped and
skips directory removal, and a directory-removal failure is returned
unwrapped. -/
def cleanProfileGo (profile : String) (pexists : Bool) (e : CleanExec) :
    Except Err Unit × CleanTrace :=
  if !pexists then (.error (.profileNotFound profile), ⟨false, false⟩)
  else
    match e.del with
    | .error msg => (.error (.raw msg), ⟨true, false⟩)
    | .ok _ =>
      match e.removeColimaDir with
      | .error msg => (.error (.raw msg), ⟨true, true⟩)
      | .ok _ =>
        match e.removeLimaDir with
        | .error msg => (.error (.raw msg), ⟨true, true⟩)
        | .ok _ => (.ok (), ⟨true, true⟩)

/-! ## Use case Start (`ColimaUseCase.Start`, `colima_usecase.go` lines 52-117) -/

/-- The default-substitution block of `ColimaUseCase.Start` (lines 55-81):
each zero/empty numeric or string field is replaced by the corresponding
`DefaultColimaConfig` field; the boolean fields are never touched. -/
def applyDefaults (c : ColimaConfig) : ColimaConfig :=
  let c := if c.profile = "" then { c with profile := DefaultColimaConfig.profile } else c
  let c := if c.cpus = 0 then { c with cpus := DefaultColimaConfig.cpus } else c
  let c := if c.memory = 0 then { c with memory := DefaultColimaConfig.memory } else c
  let c := if c.diskSize = 0 then { c with diskSize := DefaultColimaConfig.diskSize } else c
  let c := if c.vmType = "" then { c with vmType := DefaultColimaConfig.vmType } else c
  if c.runtime = "" then { c with runtime := DefaultColimaConfig.runtime } else c

/-- Oracle model of the `domain.ColimaRepository` collaborator as seen by
`ColimaUseCase.Start`: the results of the first and second
`CheckDependencies` call, of `UpdateDependencies`, and of `Start` as a
function of the config it is handed. -/
structure RepoM where
  check1 : Except Err DependencyStatus
  update : Except Err Unit
  check2 : Except Err DependencyStatus
  start : ColimaConfig → Except Err Unit

/-- Observable collaborator activity of one `ColimaUseCase.Start` call:
how many times `UpdateDependencies` ran, how many times
`CheckDependencies` ran, and the config handed to the repository `Start`
(if it was reached). -/
structure StartTrace where
  updates : Nat
  checks : Nat
  vmStart : Option ColimaConfig
deriving DecidableEq, Repr

/-- The part of `ColimaUseCase.Start` after default substitution
(`colima_usecase.go` lines 83-116): check dependencies, remediate at most
once when colima or lima is missing, re-check, then delegate to the
repository `Start` with the merged config. -/
def startBody (repo : RepoM) (config : ColimaConfig) :
    Except Err Unit × StartTrace :=
  match repo.check1 with
  | .error e => (.error e, ⟨0, 1, none⟩)
  | .ok st =>
    if !st.colima || !st.lima then
      match repo.update with
      | .error e => (.error e, ⟨1, 1, none⟩)
      | .ok _ =>
        match repo.check2 with
        | .error e => (.error e, ⟨1, 2, none⟩)
        | .ok st2 =>
          if !st2.colima || !st2.lima then
            (.error (.dependencyError "colima/lima"
              "failed to install required dependencies"), ⟨1, 2, none⟩)
          else
            match repo.start config with
            | .error e => (.error e, ⟨1, 2, some config⟩)
            | .ok _ => (.ok (), ⟨1, 2, some config⟩)
    else
      match repo.start config with
      | .error e => (.error e, ⟨0, 1, some config⟩)
      | .ok _ => (.ok (), ⟨0, 1, some config⟩)

/-- `ColimaUseCase.Start` (`colima_usecase.go` lines 52-117): default
substitution (lines 55-81) followed by the dependency/start body.  Note the
Go function never consults `domain.ProfileLock`. -/
def startUC (repo : RepoM) (config0 : ColimaConfig) :
    Except Err Unit × StartTrace :=
  startBody repo (applyDefaults config0)

/-- A repository oracle in which every dependency is present and the VM
manager start succeeds. -/
def goodRepo : RepoM :=
  { check1 := .ok { homebrew := true, colima := true, lima := true }
    update := .ok ()
    check2 := .ok { homebrew := true, colima := true, lima := true }
    start := fun _ => .ok () }

/-! ## Helper lemmas -/

lemma updRunning_fields (line : List Char) (st : ColimaStatus) :
    (updRunning line st).cpus = st.cpus ∧ (updRunning line st).memory = st.memory ∧
    (updRunning line st).diskSize = st.diskSize ∧
    (updRunning line st).kubernetes = st.kubernetes ∧
    (updRunning line st).profile = st.profile := by
  unfold updRunning; repeat' split <;> simp

lemma updRunning_status (line : List Char) (st : ColimaStatus) :
    (updRunning line st).status =
      if containsL line "running".toList then "running" else st.status := by
  unfold updRunning; split <;> simp_all

lemma updCPU_fields (line : List Char) (st : ColimaStatus) :
    (updCPU line st).status = st.status ∧ (updCPU line st).memory = st.memory ∧
    (updCPU line st).diskSize = st.diskSize ∧
    (updCPU line st).kubernetes = st.kubernetes ∧
    (updCPU line st).profile = st.profile := by
  unfold updCPU; repeat' split <;> simp

lemma updCPU_cpus (line : List Char) (st : ColimaStatus) :
    (updCPU line st).cpus =
      if containsL line "CPU:".toList then
        (sscanfIntAfter "CPU:".toList line).getD st.cpus
      else st.cpus := by
  unfold updCPU; repeat' split <;> simp_all

lemma updMemory_fields (line : List Char) (st : ColimaStatus) :
    (updMemory line st).status = st.status ∧ (updMemory line st).cpus = st.cpus ∧
    (updMemory line st).diskSize = st.diskSize ∧
    (updMemory line st).kubernetes = st.kubernetes ∧
    (updMemory line st).profile = st.profile := by
  unfold updMemory; repeat' split <;> simp

lemma updMemory_memory (line : List Char) (st : ColimaStatus) :
    (updMemory line st).memory =
      if containsL line "Memory:".toList then
        (sscanfIntAfter "Memory:".toList line).getD st.memory
      else st.memory := by
  unfold updMemory; repeat' split <;> simp_all

lemma updDisk_fields (line : List Char) (st : ColimaStatus) :
    (updDisk line st).status = st.status ∧ (updDisk line st).cpus = st.cpus ∧
    (updDisk line st).memory = st.memory ∧
    (updDisk line st).kubernetes = st.kubernetes ∧
    (updDisk line st).profile = st.profile := by
  unfold updDisk; repeat' split <;> simp

lemma updDisk_diskSize (line : List Char) (st : ColimaStatus) :
    (updDisk line st).diskSize =
      if containsL line "Disk:".toList then
        (sscanfIntAfter "Disk:".toList line).getD st.diskSize
      else st.diskSize := by
  unfold updDisk; repeat' split <;> simp_all

lemma updKube_fields (line : List Char) (st : ColimaStatus) :
    (updKube line st).status = st.status ∧ (updKube line st).cpus = st.cpus ∧
    (updKube line st).memory = st.memory ∧
    (updKube line st).diskSize = st.diskSize ∧
    (updKube line st).profile = st.profile := by
  unfold updKube; repeat' split <;> simp

lemma updKube_kubernetes (line : List Char) (st : ColimaStatus) :
    (updKube line st).kubernetes =
      (st.kubernetes || containsL line "kubernetes".toList) := by
  unfold updKube; split <;> simp_all

lemma scanLine_status (st : ColimaStatus) (l : List Char) :
    (scanLine st l).status =
      if containsL l "running".toList then "running" else st.status := by
  rw [scanLine, (updKube_fields _ _).1, (updDisk_fields _ _).1,
    (updMemory_fields _ _).1, (updCPU_fields _ _).1, updRunning_status]

lemma scanLine_kubernetes (st : ColimaStatus) (l : List Char) :
    (scanLine st l).kubernetes =
      (st.kubernetes || containsL l "kubernetes".toList) := by
  rw [scanLine, updKube_kubernetes, (updDisk_fields _ _).2.2.2.1,
    (updMemory_fields _ _).2.2.2.1, (updCPU_fields _ _).2.2.2.1,
    (updRunning_fields _ _).2.2.2.1]

lemma scanLine_profile (st : ColimaStatus) (l : List Char) :
    (scanLine st l).profile = st.profile := by
  rw [scanLine, (updKube_fields _ _).2.2.2.2, (updDisk_fields _ _).2.2.2.2,
    (updMemory_fields _ _).2.2.2.2, (updCPU_fields _ _).2.2.2.2,
    (updRunning_fields _ _).2.2.2.2]

lemma scanLine_cpus (st : ColimaStatus) (l : List Char) :
    (scanLine st l).cpus =
      if containsL l "CPU:".toList then
        (sscanfIntAfter "CPU:".toList l).getD st.cpus
      else st.cpus := by
  rw [scanLine, (updKube_fields _ _).2.1, (updDisk_fields _ _).2.1,
    (updMemory_fields _ _).2.1, updCPU_cpus, (updRunning_fields _ _).1]

lemma foldl_scanLine_status (lines : List (List Char)) (init : ColimaStatus) :
    (lines.foldl scanLine init).status =
      if lines.any (fun l => containsL l "running".toList) then "running"
      else init.status := by
  induction lines generalizing init with
  | nil => simp
  | cons l rest ih =>
    rw [List.foldl_cons, ih, scanLine_status, List.any_cons]
    cases hc : containsL l "running".toList <;>
      cases ha : rest.any (fun x => containsL x "running".toList) <;> simp_all

lemma foldl_scanLine_kubernetes (lines : List (List Char)) (init : ColimaStatus) :
    (lines.foldl scanLine init).kubernetes =
      (init.kubernetes || lines.any (fun l => containsL l "kubernetes".toList)) := by
  induction lines generalizing init with
  | nil => simp
  | cons l rest ih =>
    rw [List.foldl_cons, ih, scanLine_kubernetes, List.any_cons, Bool.or_assoc]

lemma foldl_scanLine_profile (lines : List (List Char)) (init : ColimaStatus) :
    (lines.foldl scanLine init).profile = init.profile := by
  induction lines generalizing init with
  | nil => simp
  | cons l rest ih => simp only [List.foldl_cons, ih, scanLine_profile]

lemma lockIsHeld_iff {L : List String} {p : String} :
    lockIsHeld L p = true ↔ p ∈ L :=
  List.elem_iff

lemma lockIsHeld_eq_false_iff {L : List String} {p : String} :
    lockIsHeld L p = false ↔ p ∉ L := by
  rw [← Bool.not_eq_true, not_iff_not]
  exact lockIsHeld_iff

lemma lockRelease_of_not_held {L : List String} {p : String}
    (h : lockIsHeld L p = false) : lockRelease L p = L := by
  rw [lockIsHeld_eq_false_iff] at h
  exact List.filter_eq_self.mpr (fun a ha => by
    simp only [bne_iff_ne, ne_eq, decide_eq_true_eq]
    exact fun hap => h (hap ▸ ha))

lemma lockIsHeld_release (L : List String) (p q : String) :
    lockIsHeld (lockRelease L p) q = (lockIsHeld L q && (q != p)) := by
  have hmem : lockIsHeld (lockRelease L p) q = true ↔ (q ∈ L ∧ (q != p) = true) := by
    rw [lockIsHeld_iff, lockRelease, List.mem_filter]
  cases h : lockIsHeld (lockRelease L p) q with
  | true =>
    rw [hmem] at h
    simp [lockIsHeld_iff.mpr h.1, h.2]
  | false =>
    rw [← Bool.not_eq_true, hmem] at h
    push_neg at h
    cases h2 : lockIsHeld L q with
    | true => simp [h (lockIsHeld_iff.mp h2)]
    | false => simp

lemma startBody_vmStart_eq (repo : RepoM) (cfg : ColimaConfig) (c : ColimaConfig) :
    (startBody repo cfg).2.vmStart = some c → c = cfg := by
  unfold startBody
  intro h
  repeat' split at h
  all_goals simp at h
  all_goals exact h.symm

lemma bool_and_true_not_or {a b : Bool} (h : (a && b) = true) :
    ¬ (!a || !b) = true := by
  cases a <;> cases b <;> simp_all

lemma bool_and_false_not_or {a b : Bool} (h : (a && b) = false) :
    (!a || !b) = true := by
  cases a <;> cases b <;> simp_all

/-! ## Claim theorems -/

/-- C9: the lock registry's try-acquire atomically tests-and-sets and
returns `false` exactly when the name is already held, leaving the table
unchanged in that case; a successful acquire happens only from the un-held
state and a repeated acquire then fails (at most one holder per name);
release of an un-held name is a no-op, release never affects other names,
and after a release the name can be acquired again. -/
theorem lock_registry_semantics (L : List String) (p q : String) :
    ((lockAcquire L p).1 = false ↔ lockIsHeld L p = true)
    ∧ (lockIsHeld L p = true → lockAcquire L p = (false, L))
    ∧ (lockIsHeld L p = false →
        (lockAcquire L p).1 = true ∧ lockIsHeld (lockAcquire L p).2 p = true)
    ∧ (q ≠ p → lockIsHeld (lockAcquire L p).2 q = lockIsHeld L q)
    ∧ (lockIsHeld L p = false → lockRelease L p = L)
    ∧ (q ≠ p → lockIsHeld (lockRelease L p) q = lockIsHeld L q)
    ∧ lockIsHeld (lockRelease L p) p = false
    ∧ (lockAcquire (lockRelease (lockAcquire L p).2 p) p).1 = true
    ∧ (lockAcquire (lockAcquire L p).2 p).1 = false := by
  have hrel : ∀ M : List String, lockIsHeld (lockRelease M p) p = false := by
    intro M; rw [lockIsHeld_release]; simp
  refine ⟨?_, ?_, ?_, ?_, lockRelease_of_not_held, ?_, hrel L, ?_, ?_⟩
  · cases h : lockIsHeld L p <;> simp [lockAcquire, h]
  · intro h; simp [lockAcquire, h]
  · intro h
    refine ⟨by simp [lockAcquire, h], ?_⟩
    simp only [lockAcquire, h, Bool.false_eq_true, if_false]
    exact lockIsHeld_iff.mpr (List.mem_cons_self p L)
  · intro hqp
    cases h : lockIsHeld L p with
    | true => simp [lockAcquire, h]
    | false =>
      simp only [lockAcquire, h, Bool.false_eq_true, if_false]
      simp [lockIsHeld, List.contains_cons, hqp]
  · intro hqp
    rw [lockIsHeld_release]
    simp [hqp]
  · simp [lockAcquire, hrel]
  · cases h : lockIsHeld L p with
    | true => simp [lockAcquire, h]
    | false =>
      have h2 : lockIsHeld (p :: L) p = true := by simp [lockIsHeld]
      simp [lockAcquire, h, h2]

/-- C9 witness: the lock semantics evaluated on the concrete table that
holds only "a". -/
theorem lock_registry_semantics_witness :
    (lockAcquire ["a"] "b").1 = true ∧ lockRelease ["a"] "b" = ["a"] ∧
    lockIsHeld (lockRelease ["a"] "b") "a" = lockIsHeld ["a"] "a" := by
  have h := lock_registry_semantics ["a"] "b" "a"
  exact ⟨(h.2.2.1 (by decide)).1, h.2.2.2.2.1 (by decide),
    h.2.2.2.2.2.1 (by decide)⟩

/-- C2: the Status classifier applies its rules first-match in order:
missing state directory gives ProfileNotFound regardless of the probe text;
on a failed probe, "is not running" gives ProfileNotStarted, then
"connection refused"/"cannot connect" gives ProfileUnreachable with reason
"connection to VM failed", and otherwise ProfileMalfunction carrying the
full raw output. -/
theorem status_classifier_rules (profile output : String) (exitOk : Bool) :
    (statusGo profile false output exitOk = .error (.profileNotFound profile))
    ∧ (sContains output "is not running" = true →
        statusGo profile true output false = .error (.profileNotStarted profile))
    ∧ (sContains output "is not running" = false →
        (sContains output "connection refused" || sContains output "cannot connect") = true →
        statusGo profile true output false =
          .error (.profileUnreachable profile "connection to VM failed"))
    ∧ (sContains output "is not running" = false →
        sContains output "connection refused" = false →
        sContains output "cannot connect" = false →
        statusGo profile true output false =
          .error (.profileMalfunction profile output)) := by
  refine ⟨rfl, ?_, ?_, ?_⟩
  · intro h; simp [statusGo, h]
  · intro h1 h2; simp [statusGo, h1, h2]
  · intro h1 h2 h3; simp [statusGo, h1, h2, h3]

/-- C2 witness: the classifier evaluated on a concrete transcript for each
failure rule. -/
theorem status_classifier_rules_witness :
    statusGo "p" true "colima is not running" false = .error (.profileNotStarted "p")
    ∧ statusGo "p" true "FATA cannot connect" false =
        .error (.profileUnreachable "p" "connection to VM failed")
    ∧ statusGo "p" true "boom" false = .error (.profileMalfunction "p" "boom") :=
  ⟨(status_classifier_rules "p" "colima is not running" false).2.1 (by decide),
   (status_classifier_rules "p" "FATA cannot connect" false).2.2.1 (by decide) (by decide),
   (status_classifier_rules "p" "boom" false).2.2.2 (by decide) (by decide) (by decide)⟩

/-- C10 (implicit): the success-path parser only ever produces the status
string "" or the lowercase "running", and hence never satisfies the
bootstrap readiness-polling loop's exit test, which compares the status
against the capitalised "Running" (`main.go` line 102). -/
theorem parser_never_satisfies_boot_ready (profile output : String) :
    ((parseColimaStatus profile output).status = "" ∨
      (parseColimaStatus profile output).status = "running")
    ∧ bootReadyTest (parseColimaStatus profile output) = false := by
  have h := foldl_scanLine_status (splitNl output.toList)
    ({ profile := profile } : ColimaStatus)
  constructor
  · rw [parseColimaStatus, h]
    by_cases hb : (splitNl output.toList).any
        (fun l => containsL l "running".toList) = true
    · right; rw [if_pos hb]
    · left; rw [if_neg hb]
  · rw [bootReadyTest, parseColimaStatus, h]
    by_cases hb : (splitNl output.toList).any
        (fun l => containsL l "running".toList) = true
    · rw [if_pos hb]; rfl
    · rw [if_neg hb]; rfl

/-- C3: on a zero-exit probe, the parser scans line by line — a line
containing "running" sets the state, numeric fields come from
"CPU:/Memory:/Disk: <int>" prefix extraction, "kubernetes" sets the flag,
and unmatched fields stay zero/false; the reference transcript yields
CPUs=4, Memory=8, DiskSize=60, Kubernetes=false, and every output yields a
structurally valid result rather than an error. -/
theorem status_success_parsing (profile output : String) :
    statusGo profile true "running\nCPU: 4\nMemory: 8\nDisk: 60\n" true =
      .ok { status := "running", cpus := 4, memory := 8, diskSize := 60,
            kubernetes := false, profile := profile }
    ∧ (∃ st, statusGo profile true output true = .ok st)
    ∧ ((parseColimaStatus profile output).status = "running" ↔
        ∃ l ∈ splitNl output.toList, containsL l "running".toList = true)
    ∧ ((parseColimaStatus profile output).kubernetes = true ↔
        ∃ l ∈ splitNl output.toList, containsL l "kubernetes".toList = true)
    ∧ (parseColimaStatus profile output).profile = profile
    ∧ (∀ st l n, containsL l "CPU:".toList = true →
        sscanfIntAfter "CPU:".toList l = some n → (scanLine st l).cpus = n) := by
  refine ⟨rfl, ⟨parseColimaStatus profile output, rfl⟩, ?_, ?_, ?_, ?_⟩
  · rw [parseColimaStatus, foldl_scanLine_status]
    by_cases hb : (splitNl output.toList).any
        (fun l => containsL l "running".toList) = true
    · rw [if_pos hb]
      simp only [List.any_eq_true] at hb
      simpa using hb
    · rw [if_neg hb]
      simp only [List.any_eq_true] at hb
      constructor
      · intro h
        have h0 : ("" : String) = "running" := h
        exact absurd h0 (by decide)
      · intro h; exact absurd (by simpa using h) hb
  · rw [parseColimaStatus, foldl_scanLine_kubernetes]
    simp [List.any_eq_true]
  · rw [parseColimaStatus, foldl_scanLine_profile]
  · intro st l n h1 h2
    rw [scanLine_cpus, if_pos h1, h2]
    rfl

/-- C3 witness: the per-line CPU rule evaluated on the concrete line
"CPU: 4". -/
theorem status_success_parsing_witness :
    (scanLine { profile := "p" } "CPU: 4".toList).cpus = 4 :=
  (status_success_parsing "p" "").2.2.2.2.2 { profile := "p" }
    "CPU: 4".toList 4 (by decide) (by decide)

/-- C4: for a Start whose config has every numeric and string field
zero/empty except Profile="x", the merged configuration handed to the VM
manager equals the fixed defaults (CPUs=12, Memory=32, DiskSize=100,
VMType="vz", Runtime="containerd") with Profile="x" preserved, and the
boolean fields are passed through unchanged. -/
theorem start_default_substitution (b1 b2 : Bool) (repo : RepoM) :
    applyDefaults { networkAddress := b1, kubernetes := b2, profile := "x" } =
      { cpus := 12, memory := 32, diskSize := 100, vmType := "vz",
        runtime := "containerd", networkAddress := b1, kubernetes := b2,
        profile := "x" }
    ∧ ∀ c,
        (startUC repo
            { networkAddress := b1, kubernetes := b2, profile := "x" }).2.vmStart
          = some c →
        c = { cpus := 12, memory := 32, diskSize := 100, vmType := "vz",
              runtime := "containerd", networkAddress := b1, kubernetes := b2,
              profile := "x" } := by
  refine ⟨rfl, fun c h => ?_⟩
  have hc := startBody_vmStart_eq repo
    (applyDefaults { networkAddress := b1, kubernetes := b2, profile := "x" }) c h
  rw [hc]; rfl

/-- C4 witness: the default-substitution consequence evaluated with the
all-present repository oracle and the all-zero config with Profile="x". -/
theorem start_default_substitution_witness :
    ({ cpus := 12, memory := 32, diskSize := 100, vmType := "vz",
       runtime := "containerd", networkAddress := false, kubernetes := false,
       profile := "x" } : ColimaConfig) =
      { cpus := 12, memory := 32, diskSize := 100, vmType := "vz",
        runtime := "containerd", networkAddress := false, kubernetes := false,
        profile := "x" } :=
  (start_default_substitution false false goodRepo).2 _ (by rfl)

/-- C6: when the initial dependency check reports colima or lima missing,
Start runs the dependency update exactly once and re-checks; if both are
still missing after the single attempt, it returns the terminal dependency
fault without delegating to the VM manager; when the initial check reports
both present, no update is attempted. -/
theorem start_single_remediation (repo : RepoM) (cfg : ColimaConfig)
    (st : DependencyStatus) (h1 : repo.check1 = .ok st) :
    ((st.colima && st.lima) = true → (startUC repo cfg).2.updates = 0)
    ∧ ((st.colima && st.lima) = false →
        (startUC repo cfg).2.updates = 1
        ∧ (∀ st2, repo.update = .ok () → repo.check2 = .ok st2 →
            (st2.colima && st2.lima) = false →
            (startUC repo cfg).1 =
              .error (.dependencyError "colima/lima"
                "failed to install required dependencies")
            ∧ (startUC repo cfg).2.vmStart = none)) := by
  unfold startUC startBody
  rw [h1]
  dsimp only
  constructor
  · intro hb
    rw [if_neg (bool_and_true_not_or hb)]
    rcases hs : repo.start (applyDefaults cfg) with e | u <;> rfl
  · intro hb
    rw [if_pos (bool_and_false_not_or hb)]
    constructor
    · rcases hu : repo.update with e | u
      · rfl
      · rcases hc2 : repo.check2 with e | st2
        · rfl
        · dsimp only
          by_cases hm2 : (!st2.colima || !st2.lima) = true
          · rw [if_pos hm2]
          · rw [if_neg hm2]
            rcases hs : repo.start (applyDefaults cfg) with e | u2 <;> rfl
    · intro st2 hu hc2 hb2
      rw [hu, hc2]
      dsimp only
      rw [if_pos (bool_and_false_not_or hb2)]
      exact ⟨rfl, rfl⟩

/-- C6 witness: the remediation policy evaluated on a repository oracle
whose checks report colima and lima missing both before and after the
single update. -/
theorem start_single_remediation_witness :
    (startUC
        { check1 := .ok { homebrew := true, colima := false, lima := false }
          update := .ok ()
          check2 := .ok { homebrew := true, colima := false, lima := false }
          start := fun _ => .ok () } {}).2.updates = 1
    ∧ (startUC
        { check1 := .ok { homebrew := true, colima := false, lima := false }
          update := .ok ()
          check2 := .ok { homebrew := true, colima := false, lima := false }
          start := fun _ => .ok () } {}).1 =
      .error (.dependencyError "colima/lima"
        "failed to install required dependencies") := by
  have h := (start_single_remediation
    { check1 := .ok { homebrew := true, colima := false, lima := false }
      update := .ok ()
      check2 := .ok { homebrew := true, colima := false, lima := false }
      start := fun _ => .ok () } {}
    { homebrew := true, colima := false, lima := false } rfl).2 (by decide)
  exact ⟨h.1, (h.2 { homebrew := true, colima := false, lima := false }
    rfl rfl (by decide)).1⟩

/-- C5: `CheckDependencies` checks homebrew first and, when it is absent,
returns the dependency fault immediately with only the homebrew check
performed; when homebrew is present, the colima and lima checks are both
performed, no fault is produced, and absence of either is recorded as a
`false` boolean in the snapshot. -/
theorem checkAll_dependency_policy (e : DepExec) :
    (∀ m, e.brewPrefix = .error m →
      checkDependenciesGo e =
        { status := { homebrew := false },
          fault := some (.dependencyError "homebrew" "not installed or not in PATH"),
          checks := ["homebrew"] })
    ∧ (∀ out, e.brewPrefix = .ok out →
        (checkDependenciesGo e).fault = none
        ∧ (checkDependenciesGo e).checks = ["homebrew", "colima", "lima"]
        ∧ (∀ m2, e.whichColima = .error m2 →
            (checkDependenciesGo e).status.colima = false)
        ∧ (∀ m3, e.brewListLima = .error m3 →
            (checkDependenciesGo e).status.lima = false)) := by
  obtain ⟨bp, wc, cv, bl⟩ := e
  constructor
  · intro m hm; subst hm; rfl
  · intro out ho; subst ho
    refine ⟨rfl, rfl, ?_, ?_⟩
    · intro m2 hw; subst hw
      cases bl with
      | error m3 => rfl
      | ok out2 =>
        simp only [checkDependenciesGo]
        split <;> rfl
    · intro m3 hl; subst hl
      cases wc with
      | error m2 => rfl
      | ok p => cases cv <;> rfl

/-- C5 witness: the policy evaluated on concrete executor oracles with
homebrew absent, and with homebrew present but colima and lima absent. -/
theorem checkAll_dependency_policy_witness :
    checkDependenciesGo ⟨.error "x", .ok "a", .ok "b", .ok "c"⟩ =
      { status := { homebrew := false },
        fault := some (.dependencyError "homebrew" "not installed or not in PATH"),
        checks := ["homebrew"] }
    ∧ (checkDependenciesGo
        ⟨.ok "/brew", .error "no colima", .ok "b", .error "no lima"⟩).fault = none
    ∧ (checkDependenciesGo
        ⟨.ok "/brew", .error "no colima", .ok "b", .error "no lima"⟩).status.colima
        = false
    ∧ (checkDependenciesGo
        ⟨.ok "/brew", .error "no colima", .ok "b", .error "no lima"⟩).status.lima
        = false :=
  ⟨(checkAll_dependency_policy _).1 "x" rfl,
   ((checkAll_dependency_policy _).2 "/brew" rfl).1,
   ((checkAll_dependency_policy _).2 "/brew" rfl).2.2.1 "no colima" rfl,
   ((checkAll_dependency_policy _).2 "/brew" rfl).2.2.2 "no lima" rfl⟩

/-- C7: single-profile Clean returns ProfileNotFound when the state
directory is absent; a stop failure is swallowed (success is still reported
when delete and directory removal succeed); a delete failure is fatal,
returned to the caller, and prevents any directory removal; a
directory-removal failure is fatal. -/
theorem clean_partial_failure (profile : String) (e : CleanExec) :
    (cleanProfileGo profile false e).1 = .error (.profileNotFound profile)
    ∧ (∀ m, e.del = .error m →
        cleanProfileGo profile true e = (.error (.raw m), ⟨true, false⟩))
    ∧ (e.del = .ok () → e.removeColimaDir = .ok () → e.removeLimaDir = .ok () →
        (cleanProfileGo profile true e).1 = .ok ())
    ∧ (∀ m, e.removeColimaDir = .error m → e.del = .ok () →
        (cleanProfileGo profile true e).1 = .error (.raw m))
    ∧ (∀ m, e.removeLimaDir = .error m → e.del = .ok () →
        e.removeColimaDir = .ok () →
        (cleanProfileGo profile true e).1 = .error (.raw m)) := by
  obtain ⟨stp, del, rc, rl⟩ := e
  refine ⟨rfl, ?_, ?_, ?_, ?_⟩
  · intro m hm; subst hm; rfl
  · intro h1 h2 h3; subst h1; subst h2; subst h3; rfl
  · intro m h1 h2; subst h1; subst h2; rfl
  · intro m h1 h2 h3; subst h1; subst h2; subst h3; rfl

/-- C7 witness: Clean evaluated on a concrete oracle whose stop step fails
while delete and directory removal succeed, and on one whose delete step
fails. -/
theorem clean_partial_failure_witness :
    (cleanProfileGo "p" true ⟨.error "stop failed", .ok (), .ok (), .ok ()⟩).1
      = .ok ()
    ∧ cleanProfileGo "p" true ⟨.ok (), .error "delete failed", .ok (), .ok ()⟩
      = (.error (.raw "delete failed"), ⟨true, false⟩) :=
  ⟨(clean_partial_failure "p" ⟨.error "stop failed", .ok (), .ok (), .ok ()⟩).2.2.1
      rfl rfl rfl,
   (clean_partial_failure "p" ⟨.ok (), .error "delete failed", .ok (), .ok ()⟩).2.1
      "delete failed" rfl⟩

/-- C8 counterexample: a VM-manager start failure crosses the orchestrator
boundary as the raw process error, which is not a member of the closed
fault taxonomy — refuting the claim that every collaborator failure is
wrapped. -/
theorem raw_error_escapes_counterexample :
    repoStartGo DefaultColimaConfig (.error "exit status 1") =
      .error (.raw "exit status 1")
    ∧ Err.isTaxonomy (.raw "exit status 1") = false :=
  ⟨rfl, rfl⟩

/-- C8 amended: failures surfaced by the Status classifier and by the
dependency check/update operations are wrapped into taxonomy members, but
VM-manager start and stop failures, kubeconfig file-read failures, and
Clean's delete failures are returned as the raw collaborator error, only
logged, never wrapped. -/
theorem fault_wrapping_amended (profile output m : String)
    (pexists exitOk : Bool) (cfg : ColimaConfig) (de : DepExec) (ue : UpdExec)
    (ce : CleanExec) :
    (∀ err, statusGo profile pexists output exitOk = .error err →
      err.isTaxonomy = true)
    ∧ (∀ err, (checkDependenciesGo de).fault = some err → err.isTaxonomy = true)
    ∧ (∀ err, updateDependenciesGo ue = some err → err.isTaxonomy = true)
    ∧ repoStartGo cfg (.error m) = .error (.raw m)
    ∧ repoStopGo profile true (.error m) = .error (.raw m)
    ∧ getKubeConfigGo profile true (.error m) = .error (.raw m)
    ∧ (ce.del = .error m → (cleanProfileGo profile true ce).1 = .error (.raw m)) := by
  obtain ⟨bp, wc, cv, bl⟩ := de
  obtain ⟨bu, bg⟩ := ue
  obtain ⟨stp, del, rc, rl⟩ := ce
  refine ⟨?_, ?_, ?_, rfl, rfl, rfl, ?_⟩
  · intro err h
    unfold statusGo at h
    repeat' split at h
    all_goals first
      | exact Except.noConfusion h
      | (injection h with h2; subst h2; rfl)
  · intro err h
    cases bp with
    | error m0 =>
      injection h with h2
      subst h2; rfl
    | ok out => exact Option.noConfusion h
  · intro err h
    cases bu with
    | error m0 => injection h with h2; subst h2; rfl
    | ok u =>
      cases bg with
      | error m1 => injection h with h2; subst h2; rfl
      | ok u2 => exact Option.noConfusion h
  · intro h; subst h; rfl

/-- C8 amended witness: the wrapping facts evaluated at concrete failures. -/
theorem fault_wrapping_amended_witness :
    Err.isTaxonomy (.profileNotFound "p") = true
    ∧ repoStartGo DefaultColimaConfig (.error "boom") = .error (.raw "boom")
    ∧ (cleanProfileGo "p" true ⟨.ok (), .error "boom", .ok (), .ok ()⟩).1 =
        .error (.raw "boom") := by
  have h := fault_wrapping_amended "p" "out" "boom" false false
    DefaultColimaConfig ⟨.error "x", .ok "", .ok "", .ok ""⟩ ⟨.ok (), .ok ()⟩
    ⟨.ok (), .error "boom", .ok (), .ok ()⟩
  exact ⟨h.1 (.profileNotFound "p") rfl, h.2.2.2.1, h.2.2.2.2.2.2 rfl⟩

/-- C1 (code bug): `ColimaUseCase.Start` never consults the profile lock —
with the lock for "default" held, Start still runs the dependency check,
still delegates to the VM manager with the merged config, returns success,
and never produces a ProfileBusy fault, contradicting the documented
lock-guarded behaviour that the dead `domain.ProfileLock` registry and the
handler's ProfileBusy mapping were built for. -/
theorem startUC_ignores_profile_lock (L : List String)
    (hheld : lockIsHeld L "default" = true) :
    (startUC goodRepo { profile := "default" }).1 = .ok ()
    ∧ (startUC goodRepo { profile := "default" }).2.checks = 1
    ∧ (startUC goodRepo { profile := "default" }).2.vmStart =
        some { cpus := 12, memory := 32, diskSize := 100, vmType := "vz",
               runtime := "containerd", networkAddress := false,
               kubernetes := false, profile := "default" }
    ∧ ∀ q, (startUC goodRepo { profile := "default" }).1 ≠
        .error (.profileBusy q) := by
  refine ⟨rfl, rfl, rfl, fun q h => Except.noConfusion h⟩

/-- C1 witness: the lock table that holds exactly "default". -/
theorem startUC_ignores_profile_lock_witness :
    lockIsHeld ["default"] "default" = true
    ∧ (startUC goodRepo { profile := "default" }).1 = .ok () :=
  ⟨by decide, (startUC_ignores_profile_lock ["default"] (by decide)).1⟩

end ColimaM
